import Mathlib

/-!
A shallow embedding of the concurrency core of LuxBase:
the ownership-tracking mutex (`src/include/Base/mutex.h`, class `MutexLock`
with its `UnassignGuard`) and the managed thread
(`src/src/thread.cc`, class `Thread` and `detail::ThreadData`).

Thread identifiers (`pid_t`) are embedded as `Nat` (the source notes that a
valid tid is positive, `0` being reserved as the illegal / unowned value).
The counter `Thread::numCreated_` is an `std::atomic_int32_t`; it is embedded
as an `Int` with explicit 32-bit two's-complement wrap-around.
-/

namespace LuxBase

/-! ## MutexLock (src/include/Base/mutex.h)

`MutexLock` wraps a `pthread_mutex_t` and a `pid_t holder_` field.
The state of one mutex is embedded as the owner of the native lock
(`none` when the native mutex is unlocked) together with the `holder_` field
(`0` = unowned sentinel).  The bodies of `lock()` and `unlock()` are embedded
as sequences of atomic actions so that their internal ordering, which the
source comments insist on, is visible to the model. -/

structure MuState where
  /-- Which thread currently holds the native `pthread_mutex_t`
      (`none` = unlocked).  Models the kernel side of the lock. -/
  owner : Option Nat
  /-- `MutexLock::holder_`: tid of the owning thread, `0` = unowned. -/
  holder_ : Nat
  deriving DecidableEq, Repr

/-- The four atomic actions out of which `MutexLock::lock` and
`MutexLock::unlock` are built. -/
inductive MuAction where
  /-- `pthread_mutex_lock(&mutex_)` by thread `t` (blocks while held). -/
  | pthreadLock (t : Nat)
  /-- `assignHolder()`: `holder_ = CurrentThread::tid()` for thread `t`. -/
  | assignHolder (t : Nat)
  /-- `unassignHolder()`: `holder_ = 0`. -/
  | unassignHolder
  /-- `pthread_mutex_unlock(&mutex_)` by thread `t`. -/
  | pthreadUnlock (t : Nat)
  deriving DecidableEq, Repr

/-- One atomic action applied to the mutex state.  `none` means the action is
not enabled at this point: `pthread_mutex_lock` blocks while the native lock
is held, so a schedule that runs it there is not executable, and
`pthread_mutex_unlock` is only ever issued by the thread holding the lock
(PTHREAD_MUTEX_NORMAL, used as in the source). -/
def muStep (s : MuState) : MuAction → Option MuState
  | .pthreadLock t =>
    match s.owner with
    | none => some { s with owner := some t }
    | some _ => none
  | .assignHolder t => some { s with holder_ := t }
  | .unassignHolder => some { s with holder_ := 0 }
  | .pthreadUnlock t =>
    match s.owner with
    | some u => if u = t then some { s with owner := none } else none
    | none => none

/-- Run a schedule of atomic actions; `none` as soon as one is not enabled. -/
def muRun (s : MuState) : List MuAction → Option MuState
  | [] => some s
  | a :: rest => (muStep s a).bind (fun s' => muRun s' rest)

/-- `MutexLock::lock()` by thread `t`:
`pthread_mutex_lock(&mutex_); assignHolder();` — in this order
(the source comment says the order must not be reversed). -/
def lockSeq (t : Nat) : List MuAction :=
  [.pthreadLock t, .assignHolder t]

/-- `MutexLock::unlock()` by thread `t`:
`unassignHolder(); pthread_mutex_unlock(&mutex_);` — clear first, release
second. -/
def unlockSeq (t : Nat) : List MuAction :=
  [.unassignHolder, .pthreadUnlock t]

/-- Helper for `interleavings`: interleave `x :: xs` with the second
sequence, where `rec` interleaves `xs` with any second sequence. -/
def interleavingsAux (x : MuAction) (xs : List MuAction)
    (rec : List MuAction → List (List MuAction)) :
    List MuAction → List (List MuAction)
  | [] => [x :: xs]
  | y :: ys =>
    (rec (y :: ys)).map (x :: ·) ++ (interleavingsAux x xs rec ys).map (y :: ·)

/-- All interleavings of two per-thread action sequences (each thread's own
program order is preserved). -/
def interleavings : List MuAction → List MuAction → List (List MuAction)
  | [], ys => [ys]
  | x :: xs, ys => interleavingsAux x xs (interleavings xs) ys

/-- `~MutexLock()` outcome: either the `assert(holder_ == 0)` fires, or the
assertion passes and `pthread_mutex_destroy` runs. -/
inductive DtorOutcome where
  | assertFailed
  | destroyed
  deriving DecidableEq, Repr

/-- `MutexLock::~MutexLock()`: `assert(holder_ == 0);` then
`MCHECK(pthread_mutex_destroy(&mutex_));`.  The native mutex is destroyed
only when the assertion passes. -/
def MutexLock.destructor (holder_ : Nat) : DtorOutcome :=
  if holder_ = 0 then .destroyed else .assertFailed

/-- `MutexLock::UnassignGuard::UnassignGuard(MutexLock&)`:
the constructor calls `owner_.unassignHolder()`. -/
def UnassignGuard.construct (m : MuState) : MuState :=
  { m with holder_ := 0 }

/-- `MutexLock::UnassignGuard::~UnassignGuard()`: the destructor calls
`owner_.assignHolder()`, i.e. `holder_ = CurrentThread::tid()` of the
calling thread. -/
def UnassignGuard.destruct (callerTid : Nat) (m : MuState) : MuState :=
  { m with holder_ := callerTid }

/-- How the body of a scope exits: normally, or by stack unwinding. -/
inductive ScopeExit where
  | normal
  | unwound
  deriving DecidableEq, Repr

/-- A C++ scope containing an `UnassignGuard`: the guard's constructor runs on
entry and, because the guard is a stack object, its destructor runs on every
exit path of the scope — also when the body exits by unwinding. -/
def withUnassignGuard (callerTid : Nat) (m : MuState)
    (body : MuState → MuState × ScopeExit) : MuState × ScopeExit :=
  let r := body (UnassignGuard.construct m)
  (UnassignGuard.destruct callerTid r.1, r.2)

/-! ## Thread lifecycle (src/src/thread.cc)

`Thread` carries `started_`, `joined_`, `pthreadId_`, `tid_`, `func_`,
`name_`, `latch_` (a `CountDownLatch` constructed with count 1).  The
function value `func_` plays no role in the lifecycle claims and is not
carried. -/

structure ThreadObj where
  started_ : Bool
  joined_ : Bool
  pthreadId_ : Nat
  tid_ : Nat
  name_ : String
  /-- Current count of the member `latch_` (constructed with count 1).
      Modelled from the spec: `CountDownLatch` (its header is not under
      `src/`) is a one-shot barrier of initial count 1; `countDown()`
      decrements it and `wait()` blocks until the count reaches 0. -/
  latchCount : Nat
  deriving DecidableEq, Repr

/-- Observable effects of the `pthread_create` failure branch of
`Thread::start()`, in program order. -/
inductive StartEffect where
  /-- `started_ = false;` -/
  | rollbackStarted
  /-- `delete data;` — the `ThreadData` transfer record is discarded. -/
  | deleteTransferRecord
  /-- `perror(...)`: the message written to standard error. -/
  | perrorMsg (s : String)
  /-- `abort();` -/
  | abortProcess
  deriving DecidableEq, Repr

/-- Result of `Thread::start()`. -/
inductive StartOutcome where
  /-- `assert(!started_)` fired. -/
  | assertFailed
  /-- `pthread_create` failed: the listed effects happen in order and the
      process aborts; the final object state is recorded. -/
  | aborted (effects : List StartEffect) (t : ThreadObj)
  /-- `pthread_create` succeeded, `latch_.wait()` returned,
      `assert(tid_ > 0)` passed. -/
  | ok (t : ThreadObj)
  deriving DecidableEq, Repr

/-- `Thread::start()`.  `createSucceeds` is the outcome of `pthread_create`;
`newTid` is the identity the spawned thread publishes into `tid_` before
`latch_.wait()` returns (the fine-grained interleaving of the publication
with the wait is the `SpawnStep` machine below). -/
def Thread.start (t : ThreadObj) (createSucceeds : Bool) (newTid : Nat) :
    StartOutcome :=
  if t.started_ then .assertFailed
  else
    let t1 := { t with started_ := true }
    if createSucceeds then
      .ok { t1 with tid_ := newTid, latchCount := 0 }
    else
      .aborted
        [.rollbackStarted, .deleteTransferRecord,
         .perrorMsg "Failed in pthread_create", .abortProcess]
        { t1 with started_ := false }

/-- `Thread::join()`: `assert(started_); assert(!joined_); joined_ = true;
return pthread_join(pthreadId_, nullptr);`.  `joinRet` is the value returned
by `pthread_join`; `none` means an assertion fired. -/
def Thread.join (t : ThreadObj) (joinRet : Int) : Option (ThreadObj × Int) :=
  if !t.started_ then none
  else if t.joined_ then none
  else some ({ t with joined_ := true }, joinRet)

/-! ## The trampoline `detail::ThreadData::runThread` (src/src/thread.cc)

The body of `runThread` (plus the exception handling wrapped around the call
of `func_`) is embedded as the ordered list of its observable effects. -/

/-- Observable events of the trampoline, in program order. -/
inductive TEvent where
  /-- `*tid_ = Lute::CurrentThread::tid();` — the identity is published into
      the `Thread` object's slot. -/
  | publishTid (t : Nat)
  /-- `latch_->countDown();` -/
  | countDown
  /-- an assignment `Lute::CurrentThread::t_threadName = s;` -/
  | setDisplayName (s : String)
  /-- `::prctl(PR_SET_NAME, ...)` with the current display name. -/
  | prctlSetName (s : String)
  /-- the call `func_();` -/
  | invokeFunc
  /-- an `fprintf(stderr, ...)` line (shown without the trailing newline). -/
  | stderrLine (s : String)
  /-- `abort();` -/
  | abortProcess
  /-- `throw;` — the caught object is re-raised. -/
  | rethrow
  deriving DecidableEq, Repr

/-- How the call `func_()` terminates inside the `try` block. -/
inductive FuncOutcome where
  /-- normal return. -/
  | normal
  /-- a `Lute::Exception` escapes; `what` is `ex.what()`, `st` is
      `ex.stackTrace()`. -/
  | luteExc (what st : String)
  /-- some other `std::exception` escapes; `what` is `ex.what()`. -/
  | stdExc (what : String)
  /-- anything else escapes (the `catch (...)` branch). -/
  | unknownFault
  deriving DecidableEq, Repr

/-- `detail::ThreadData::runThread()`: publish the tid, count the latch down,
set the display name (`name_` if non-empty, else `"LuteThread"`), apply it via
`prctl`, then run `func_()` under the exception handlers of the source. -/
def runThread (name_ : String) (myTid : Nat) (oc : FuncOutcome) :
    List TEvent :=
  let display := if name_.isEmpty then "LuteThread" else name_
  [.publishTid myTid, .countDown,
   .setDisplayName display, .prctlSetName display, .invokeFunc] ++
  match oc with
  | .normal => [.setDisplayName "finished"]
  | .luteExc what st =>
    [.setDisplayName "crashed",
     .stderrLine ("exception caught in Thread " ++ name_),
     .stderrLine ("reason: " ++ what),
     .stderrLine ("stack trace: " ++ st),
     .abortProcess]
  | .stdExc what =>
    [.setDisplayName "crashed",
     .stderrLine ("exception caught in Thread " ++ name_),
     .stderrLine ("reason: " ++ what),
     .abortProcess]
  | .unknownFault =>
    [.setDisplayName "crashed",
     .stderrLine ("unknown exception caught in Thread " ++ name_),
     .rethrow]

/-- Recognizer for the `invokeFunc` event. -/
def isInvokeFunc : TEvent → Bool
  | .invokeFunc => true
  | _ => false

/-! ## The start handshake (src/src/thread.cc)

The interleaving of the creator inside `Thread::start()` (after a successful
`pthread_create`) with the first steps of the spawned thread's
`runThread` is embedded as a small-step machine.  The creator blocks in
`latch_.wait()`: that transition is enabled only once the latch count has
reached 0 — there is no transition that lets `start()` proceed by sleeping or
polling.  `CountDownLatch` itself is modelled from the spec (its header is
not under `src/`): a one-shot barrier of initial count 1. -/

structure SpawnState where
  /-- `Thread::tid_`, the slot the spawned thread publishes into
      (0 before publication, the source's illegal value). -/
  tid_ : Nat
  /-- current count of `Thread::latch_` (constructed with count 1). -/
  latch : Nat
  /-- program counter of the spawned thread inside `runThread`:
      0 = before `*tid_ = tid()`, 1 = before `countDown()`,
      2 = before the display-name assignment, 3 = before `func_()`,
      4 = `func_()` invoked. -/
  tpc : Nat
  /-- whether the creator has returned from `latch_.wait()`
      (and hence from `start()`, after `assert(tid_ > 0)`). -/
  startReturned : Bool
  deriving DecidableEq, Repr

/-- State right after a successful `pthread_create`: nothing published,
latch at its initial count 1, both threads at their first step. -/
def spawnInit : SpawnState := ⟨0, 1, 0, false⟩

/-- Interleaved small-step semantics of the handshake.  `newTid` is the value
of `Lute::CurrentThread::tid()` on the spawned thread. -/
inductive SpawnStep (newTid : Nat) : SpawnState → SpawnState → Prop where
  /-- spawned thread: `*tid_ = Lute::CurrentThread::tid();` -/
  | publish : ∀ s, s.tpc = 0 →
      SpawnStep newTid s { s with tid_ := newTid, tpc := 1 }
  /-- spawned thread: `latch_->countDown();` -/
  | countDown : ∀ s, s.tpc = 1 →
      SpawnStep newTid s { s with latch := s.latch - 1, tpc := 2 }
  /-- spawned thread: display-name assignment and `prctl`. -/
  | setName : ∀ s, s.tpc = 2 → SpawnStep newTid s { s with tpc := 3 }
  /-- spawned thread: `func_()` is entered. -/
  | callFunc : ∀ s, s.tpc = 3 → SpawnStep newTid s { s with tpc := 4 }
  /-- creator: `latch_.wait()` returns — enabled only when the count is 0. -/
  | latchWait : ∀ s, s.latch = 0 → s.startReturned = false →
      SpawnStep newTid s { s with startReturned := true }

/-- States reachable from `spawnInit` by interleaved steps. -/
inductive SpawnReach (newTid : Nat) : SpawnState → Prop where
  | init : SpawnReach newTid spawnInit
  | step : ∀ s s', SpawnReach newTid s → SpawnStep newTid s s' →
      SpawnReach newTid s'

/-! ## Default naming and the construction counter (src/src/thread.cc)

`Thread::numCreated_` is a zero-initialized `std::atomic_int32_t`;
`fetch_add(1)` returns the PREVIOUS value and wraps in 32-bit two's
complement. -/

/-- 32-bit two's-complement wrap-around. -/
def wrap32 (x : Int) : Int := (x + 2 ^ 31) % 2 ^ 32 - 2 ^ 31

/-- Decimal rendering of a 32-bit signed value, as `snprintf` `"%d"`
produces it. -/
def int32str (i : Int) : String :=
  if i < 0 then "-" ++ Nat.repr i.natAbs else Nat.repr i.toNat

/-- `Thread::setDefaultName()`:
`int num = numCreated_.fetch_add(1); if (name_.empty()) { snprintf(buf, 32,
"Thread%d", num); name_ = buf; }`.  Takes the current counter and name,
returns the new counter and name.  (The formatted text is at most 18
characters, well inside the 32-byte buffer, so `snprintf` never truncates.) -/
def setDefaultName (numCreated : Int) (name_ : String) : Int × String :=
  let num := numCreated
  (wrap32 (numCreated + 1),
   if name_.isEmpty then "Thread" ++ int32str num else name_)

/-- `Thread::Thread(ThreadFunc, std::string)`: member initialization
(`started_(false), joined_(false), pthreadId_(0), tid_(0), ..., latch_(1)`)
followed by `setDefaultName()`.  Takes the current value of `numCreated_`,
returns its new value and the constructed object. -/
def Thread.construct (numCreated : Int) (name : String) : Int × ThreadObj :=
  let p := setDefaultName numCreated name
  (p.1,
   { started_ := false, joined_ := false, pthreadId_ := 0, tid_ := 0,
     name_ := p.2, latchCount := 1 })

/-- Construct `n` threads with empty names in sequence, starting from counter
value `numCreated`; returns the final counter and the list of assigned
names in construction order. -/
def constructUnnamed (numCreated : Int) : Nat → Int × List String
  | 0 => (numCreated, [])
  | n + 1 =>
    let p := Thread.construct numCreated ""
    let rest := constructUnnamed p.1 n
    (rest.1, p.2.name_ :: rest.2)

/-! ## Theorems -/

/-- C2.  `MutexLock::unlock()` clears `holder_` to the unowned sentinel 0
strictly before the native mutex is released: after its first action the
holder is already 0 while the native lock is still held, and immediately
after `unlock()` the holder is unowned and the native lock free.  Dually
`MutexLock::lock()` first acquires the native mutex (leaving `holder_`
untouched) and only then assigns `holder_`, so a waiting thread's `lock()`
observes itself as holder before returning.  Moreover, in every executable
interleaving of the holding thread's `unlock()` with a waiting thread's
`lock()`, the final state has the waiting thread as holder of both the
native lock and the `holder_` field. -/
theorem unlock_clears_holder_before_release_and_lock_assigns_after_acquire
    (t1 t2 : Nat) :
    muRun ⟨some t1, t1⟩ [.unassignHolder] = some ⟨some t1, 0⟩
    ∧ muRun ⟨some t1, t1⟩ (unlockSeq t1) = some ⟨none, 0⟩
    ∧ (∀ h0, muRun ⟨none, h0⟩ [.pthreadLock t2] = some ⟨some t2, h0⟩)
    ∧ (∀ h0, muRun ⟨none, h0⟩ (lockSeq t2) = some ⟨some t2, t2⟩)
    ∧ (∀ tr ∈ interleavings (unlockSeq t1) (lockSeq t2), ∀ s',
        muRun ⟨some t1, t1⟩ tr = some s' →
        s'.holder_ = t2 ∧ s'.owner = some t2) := by
  refine ⟨by simp [muRun, muStep], by simp [muRun, muStep, unlockSeq],
    fun h0 => by simp [muRun, muStep],
    fun h0 => by simp [muRun, muStep, lockSeq], ?_⟩
  intro tr htr s' hrun
  have hint : interleavings (unlockSeq t1) (lockSeq t2) =
      [[.unassignHolder, .pthreadUnlock t1, .pthreadLock t2, .assignHolder t2],
       [.unassignHolder, .pthreadLock t2, .pthreadUnlock t1, .assignHolder t2],
       [.unassignHolder, .pthreadLock t2, .assignHolder t2, .pthreadUnlock t1],
       [.pthreadLock t2, .unassignHolder, .pthreadUnlock t1, .assignHolder t2],
       [.pthreadLock t2, .unassignHolder, .assignHolder t2, .pthreadUnlock t1],
       [.pthreadLock t2, .assignHolder t2, .unassignHolder, .pthreadUnlock t1]]
    := rfl
  rw [hint] at htr
  simp only [List.mem_cons, List.not_mem_nil, or_false] at htr
  rcases htr with rfl | rfl | rfl | rfl | rfl | rfl <;>
    simp [muRun, muStep] at hrun
  simp [← hrun]

/-- C2 witness: at tids 1 (releasing) and 2 (acquiring), the single
executable interleaving ends with thread 2 as holder. -/
theorem unlock_lock_ordering_witness :
    (⟨some 2, 2⟩ : MuState).holder_ = 2
    ∧ (⟨some 2, 2⟩ : MuState).owner = some 2 :=
  (unlock_clears_holder_before_release_and_lock_assigns_after_acquire
      1 2).2.2.2.2
    [.unassignHolder, .pthreadUnlock 1, .pthreadLock 2, .assignHolder 2]
    (by decide) ⟨some 2, 2⟩ (by decide)

/-- C5.  `~MutexLock()` requires `holder_ == 0`: the native mutex is
destroyed exactly when the holder is the unowned sentinel 0, and destroying
the lock while any thread holds it takes the fatal assertion path. -/
theorem mutex_destructor_requires_unowned (h : Nat) :
    (MutexLock.destructor h = .destroyed ↔ h = 0)
    ∧ (h ≠ 0 → MutexLock.destructor h = .assertFailed) := by
  constructor
  · constructor
    · intro hd
      by_contra hne
      simp [MutexLock.destructor, hne] at hd
    · intro h0; simp [MutexLock.destructor, h0]
  · intro hne; simp [MutexLock.destructor, hne]

/-- C5 witness: a lock held by thread 7 fails the destructor assertion;
an unowned lock is destroyed. -/
theorem mutex_destructor_requires_unowned_witness :
    MutexLock.destructor 7 = .assertFailed
    ∧ MutexLock.destructor 0 = .destroyed :=
  ⟨(mutex_destructor_requires_unowned 7).2 (by decide),
   (mutex_destructor_requires_unowned 0).1.2 rfl⟩

/-- C6.  The `Thread` lifecycle assertions: `start()` on an already started
thread fails its assertion (and never does otherwise); `join()` before
`start()` fails its assertion; `join()` after a successful `join()` fails its
assertion; a legal `join()` sets `joined_` and returns the `pthread_join`
result. -/
theorem lifecycle_assertions (t : ThreadObj) (b : Bool) (n : Nat) (r : Int) :
    (t.started_ = true → Thread.start t b n = .assertFailed)
    ∧ (t.started_ = false → Thread.start t b n ≠ .assertFailed)
    ∧ (t.started_ = false → Thread.join t r = none)
    ∧ (t.started_ = true → t.joined_ = true → Thread.join t r = none)
    ∧ (t.started_ = true → t.joined_ = false →
        Thread.join t r = some ({ t with joined_ := true }, r))
    ∧ (t.started_ = true →
        Thread.join { t with joined_ := true } r = none) := by
  refine ⟨fun h => by simp [Thread.start, h],
    fun h => by cases b <;> simp [Thread.start, h],
    fun h => by simp [Thread.join, h],
    fun h1 h2 => by simp [Thread.join, h1, h2],
    fun h1 h2 => by simp [Thread.join, h1, h2],
    fun h1 => by simp [Thread.join, h1]⟩

/-- C6 witness: a fresh thread object joins only after start; start twice
fails. -/
theorem lifecycle_assertions_witness :
    Thread.join ⟨false, false, 0, 0, "w", 1⟩ 0 = none
    ∧ Thread.start ⟨true, false, 5, 9, "w", 0⟩ true 9 = .assertFailed :=
  ⟨(lifecycle_assertions ⟨false, false, 0, 0, "w", 1⟩ true 9 0).2.2.1 rfl,
   (lifecycle_assertions ⟨true, false, 5, 9, "w", 0⟩ true 9 0).1 rfl⟩

/-- C7.  When `pthread_create` fails, `Thread::start()` rolls `started_`
back to `false`, deletes the `ThreadData` transfer record, writes
`"Failed in pthread_create"` to standard error via `perror`, and aborts the
process — in that order, with the rollback first and the abort last, and the
resulting object has `started_ = false`. -/
theorem start_create_failure_fatal (t : ThreadObj) (n : Nat)
    (h : t.started_ = false) :
    Thread.start t false n =
      .aborted
        [.rollbackStarted, .deleteTransferRecord,
         .perrorMsg "Failed in pthread_create", .abortProcess]
        { t with started_ := false }
    ∧ ([StartEffect.rollbackStarted, .deleteTransferRecord,
        .perrorMsg "Failed in pthread_create", .abortProcess].head?
          = some .rollbackStarted)
    ∧ ([StartEffect.rollbackStarted, .deleteTransferRecord,
        .perrorMsg "Failed in pthread_create", .abortProcess].getLast?
          = some .abortProcess)
    ∧ ({ t with started_ := false } : ThreadObj).started_ = false := by
  refine ⟨by simp [Thread.start, h], by decide, by decide, rfl⟩

/-- C7 witness: concrete fresh thread object, failed creation. -/
theorem start_create_failure_fatal_witness :
    Thread.start ⟨false, false, 0, 0, "w", 1⟩ false 7 =
      .aborted
        [.rollbackStarted, .deleteTransferRecord,
         .perrorMsg "Failed in pthread_create", .abortProcess]
        ⟨false, false, 0, 0, "w", 1⟩ :=
  (start_create_failure_fatal ⟨false, false, 0, 0, "w", 1⟩ 7 rfl).1

/-- C9.  `MutexLock::UnassignGuard`: its constructor sets the mutex's
`holder_` to the unowned sentinel 0 (touching nothing else), its destructor
sets `holder_` to the calling thread's identity unconditionally, and in a
scope containing the guard the holder is the caller again on scope exit for
every body and every exit path — normal or unwinding. -/
theorem unassign_guard_clears_and_restores (caller : Nat) (m : MuState)
    (body : MuState → MuState × ScopeExit) :
    (UnassignGuard.construct m).holder_ = 0
    ∧ (UnassignGuard.construct m).owner = m.owner
    ∧ (∀ m', (UnassignGuard.destruct caller m').holder_ = caller)
    ∧ (withUnassignGuard caller m body).1.holder_ = caller
    ∧ (withUnassignGuard caller m body).2 = (body { m with holder_ := 0 }).2
    := ⟨rfl, rfl, fun _ => rfl, rfl, rfl⟩

/-- C3 counterexample.  The claim says the trampoline defaults the display
name to `"Thread"` when the given name is empty; the source
(`ThreadData::runThread`) uses `"LuteThread"`.  At the concrete input
(empty name, tid 1, normal completion) the trace sets the display name to
`"LuteThread"` and never to `"Thread"`. -/
theorem trampoline_default_display_name_cex :
    TEvent.setDisplayName "LuteThread" ∈ runThread "" 1 .normal
    ∧ TEvent.setDisplayName "Thread" ∉ runThread "" 1 .normal := by
  decide

/-- C3 (amended: the empty-name default of the display name is
`"LuteThread"`, not `"Thread"`).  For every started thread the trampoline
performs, in this order: (a) publishes its identity into the slot,
(b) signals the barrier, (c) sets the thread's display name — the given name,
defaulting to `"LuteThread"` if it is empty — and applies it as the
OS-visible thread name via `prctl`, and (d) invokes the user function,
exactly once in the whole trace. -/
theorem trampoline_order_publish_countdown_setname_invoke
    (name : String) (tid : Nat) (oc : FuncOutcome) :
    (runThread name tid oc).take 5 =
      [.publishTid tid, .countDown,
       .setDisplayName (if name.isEmpty then "LuteThread" else name),
       .prctlSetName (if name.isEmpty then "LuteThread" else name),
       .invokeFunc]
    ∧ (runThread name tid oc).countP isInvokeFunc = 1 := by
  cases oc <;> simp [runThread, isInvokeFunc, List.countP_cons]

/-- C8.  Fault handling in the trampoline: a `Lute::Exception` sets the
display name to `"crashed"`, writes `"exception caught in Thread <name>"`,
`"reason: <description>"` and `"stack trace: <trace>"` to standard error in
that literal form and order, and aborts the process; any other
`std::exception` does the same minus the stack trace; an unrecognized fault
is re-raised after the name is set to `"crashed"` (and its own stderr line);
normal completion of the user function sets the display name to
`"finished"`. -/
theorem trampoline_fault_handling (name : String) (tid : Nat)
    (what st : String) :
    runThread name tid (.luteExc what st) =
      (runThread name tid (.luteExc what st)).take 5 ++
      [.setDisplayName "crashed",
       .stderrLine ("exception caught in Thread " ++ name),
       .stderrLine ("reason: " ++ what),
       .stderrLine ("stack trace: " ++ st),
       .abortProcess]
    ∧ runThread name tid (.stdExc what) =
        (runThread name tid (.stdExc what)).take 5 ++
        [.setDisplayName "crashed",
         .stderrLine ("exception caught in Thread " ++ name),
         .stderrLine ("reason: " ++ what),
         .abortProcess]
    ∧ runThread name tid .unknownFault =
        (runThread name tid .unknownFault).take 5 ++
        [.setDisplayName "crashed",
         .stderrLine ("unknown exception caught in Thread " ++ name),
         .rethrow]
    ∧ runThread name tid .normal =
        (runThread name tid .normal).take 5 ++ [.setDisplayName "finished"]
    := by
  refine ⟨?_, ?_, ?_, ?_⟩ <;> simp [runThread]

/-- Inductive invariant of the start handshake. -/
def spawnInv (newTid : Nat) (s : SpawnState) : Prop :=
  (s.tpc = 0 → s.latch = 1 ∧ s.tid_ = 0)
  ∧ (1 ≤ s.tpc → s.tid_ = newTid)
  ∧ (s.latch = 0 → 2 ≤ s.tpc)
  ∧ (s.tpc = 1 → s.latch = 1)
  ∧ (s.startReturned = true → s.latch = 0)

/-- The invariant holds in every reachable state of the handshake. -/
theorem spawnInv_of_reach (newTid : Nat) (s : SpawnState)
    (h : SpawnReach newTid s) : spawnInv newTid s := by
  induction h with
  | init => simp [spawnInv, spawnInit]
  | step s s' _ hstep ih =>
    obtain ⟨i1, i2, i3, i4, i5⟩ := ih
    cases hstep with
    | publish h0 =>
      refine ⟨by simp [h0], by simp, ?_, by simp [(i1 h0).1], ?_⟩
      · intro hl; exact absurd ((i1 h0).1.symm.trans hl) one_ne_zero
      · intro hr
        exact absurd ((i5 hr).symm.trans (i1 h0).1) zero_ne_one
    | countDown h1 =>
      refine ⟨by simp [h1], fun _ => i2 (by omega), by simp, by simp, ?_⟩
      intro hr
      exact absurd ((i5 hr).symm.trans (i4 h1)) zero_ne_one
    | setName h2 =>
      exact ⟨by simp [h2], fun _ => i2 (by omega), by simp [h2],
        by simp [h2], i5⟩
    | callFunc h3 =>
      exact ⟨by simp [h3], fun _ => i2 (by omega), by simp [h3],
        by simp [h3], i5⟩
    | latchWait hl hr =>
      exact ⟨fun h0 => absurd ((i1 h0).1.symm.trans hl) one_ne_zero,
        i2, i3, fun h1 => (i4 h1), fun _ => hl⟩

/-- C1.  After a successful `pthread_create`, `Thread::start()` returns only
once the spawned thread has published its identity: in every reachable state
of the handshake in which `start()` has returned, the latch (created with
count 1) has been counted down to 0, the spawned thread has executed its
publication step, and the published `tid_` equals the spawned thread's
identity and is positive.  The latch count can only reach 0 after the
publication step (`latch = 0 → 2 ≤ tpc`), and the `latchWait` transition —
the only way `start()` proceeds — is enabled solely by that count, not by any
sleeping or polling transition. -/
theorem start_returns_only_after_tid_published (newTid : Nat)
    (hpos : 0 < newTid) (s : SpawnState) (hreach : SpawnReach newTid s) :
    (s.startReturned = true →
      s.latch = 0 ∧ 2 ≤ s.tpc ∧ s.tid_ = newTid ∧ 0 < s.tid_)
    ∧ (s.latch = 0 → 2 ≤ s.tpc)
    ∧ spawnInit.latch = 1 := by
  obtain ⟨i1, i2, i3, i4, i5⟩ := spawnInv_of_reach newTid s hreach
  refine ⟨?_, i3, rfl⟩
  intro hr
  have hl := i5 hr
  have htpc := i3 hl
  have htid := i2 (by omega)
  exact ⟨hl, htpc, htid, htid ▸ hpos⟩

/-- C1 witness: the execution publish → countDown → latchWait with tid 42
reaches the state where `start()` has returned with `tid_ = 42 > 0`. -/
theorem start_returns_only_after_tid_published_witness :
    (⟨42, 0, 2, true⟩ : SpawnState).latch = 0
    ∧ 2 ≤ (⟨42, 0, 2, true⟩ : SpawnState).tpc
    ∧ (⟨42, 0, 2, true⟩ : SpawnState).tid_ = 42
    ∧ 0 < (⟨42, 0, 2, true⟩ : SpawnState).tid_ :=
  (start_returns_only_after_tid_published 42 (by decide) ⟨42, 0, 2, true⟩
    (SpawnReach.step _ _
      (SpawnReach.step _ _
        (SpawnReach.step _ _ SpawnReach.init (SpawnStep.publish _ rfl))
        (SpawnStep.countDown _ rfl))
      (SpawnStep.latchWait _ rfl rfl))).1 rfl

/-! ### Decimal rendering is injective (proof infrastructure for C4)

`Nat.repr` is core's decimal rendering (what the embedding uses for
`snprintf "%d"`); injectivity is proved through a decoding function. -/

/-- Decode a most-significant-first list of decimal digit characters. -/
def decodeDigits (l : List Char) : Nat :=
  l.foldl (fun acc c => 10 * acc + (c.toNat - 48)) 0

theorem toDigitsCore_append (fuel : Nat) :
    ∀ (n : Nat) (ds : List Char),
    Nat.toDigitsCore 10 fuel n ds = Nat.toDigitsCore 10 fuel n [] ++ ds := by
  induction fuel with
  | zero => intro n ds; simp [Nat.toDigitsCore]
  | succ f ih =>
    intro n ds
    simp only [Nat.toDigitsCore]
    by_cases h : n / 10 = 0
    · simp [h]
    · simp only [h, if_false]
      rw [ih (n / 10) (Nat.digitChar (n % 10) :: ds),
        ih (n / 10) [Nat.digitChar (n % 10)]]
      simp

theorem digitChar_toNat (d : Nat) (h : d < 10) :
    (Nat.digitChar d).toNat - 48 = d := by
  interval_cases d <;> decide

theorem decode_toDigitsCore (fuel : Nat) :
    ∀ n, n < fuel → decodeDigits (Nat.toDigitsCore 10 fuel n []) = n := by
  induction fuel with
  | zero => intro n h; omega
  | succ f ih =>
    intro n hn
    simp only [Nat.toDigitsCore]
    by_cases h : n / 10 = 0
    · have hlt : n < 10 := by omega
      simp [h, decodeDigits,
        digitChar_toNat (n % 10) (Nat.mod_lt n (by omega))]
      omega
    · simp only [h, if_false]
      rw [toDigitsCore_append]
      have h1 : n / 10 < f := by
        have hd : n / 10 < n := Nat.div_lt_self (by omega) (by norm_num)
        omega
      have h2 := ih (n / 10) h1
      simp only [decodeDigits, List.foldl_append] at h2 ⊢
      rw [h2]
      simp only [List.foldl]
      rw [digitChar_toNat (n % 10) (Nat.mod_lt n (by omega))]
      omega

theorem nat_repr_injective : Function.Injective Nat.repr := by
  intro m n h
  have hm := decode_toDigitsCore (m + 1) m (Nat.lt_succ_self m)
  have hn := decode_toDigitsCore (n + 1) n (Nat.lt_succ_self n)
  have hd : Nat.toDigits 10 m = Nat.toDigits 10 n := congrArg String.data h
  rw [Nat.toDigits] at hd
  rw [hd] at hm
  exact hm.symm.trans hn

theorem threadName_injective :
    Function.Injective (fun i : Nat => "Thread" ++ Nat.repr i) := by
  intro a b h
  apply nat_repr_injective
  have hd : "Thread".data ++ (Nat.repr a).data
      = "Thread".data ++ (Nat.repr b).data := congrArg String.data h
  exact String.ext (List.append_cancel_left hd)

theorem wrap32_eq_self (x : Int) (h0 : 0 ≤ x) (h1 : x < 2 ^ 31) :
    wrap32 x = x := by
  unfold wrap32
  rw [Int.emod_eq_of_lt (by omega) (by omega)]
  omega

theorem int32str_natCast (c : Nat) : int32str (c : Int) = Nat.repr c := by
  simp [int32str]

/-- Constructing `n` unnamed threads from counter value `c` (with no 32-bit
wrap-around in range) advances the counter to `c + n` and assigns the default
names `"Thread<c>"`, …, `"Thread<c+n-1>"` in order. -/
theorem constructUnnamed_spec (n : Nat) :
    ∀ c : Nat, c + n < 2 ^ 31 →
    constructUnnamed (c : Int) n =
      (((c + n : Nat) : Int),
       (List.range' c n).map (fun i => "Thread" ++ Nat.repr i)) := by
  induction n with
  | zero => intro c h; simp [constructUnnamed]
  | succ n ih =>
    intro c h
    simp only [constructUnnamed, Thread.construct, setDefaultName]
    have hw : wrap32 ((c : Int) + 1) = (((c + 1 : Nat) : Int)) := by
      rw [show ((c : Int) + 1) = ((c + 1 : Nat) : Int) by push_cast; ring]
      exact wrap32_eq_self _ (by positivity)
        (by exact_mod_cast (by omega : c + 1 < 2 ^ 31))
    rw [hw, ih (c + 1) (by omega)]
    refine Prod.ext ?_ ?_
    · simp; omega
    · simp [show ("".isEmpty) = true from rfl, int32str_natCast,
        List.range'_succ]

/-- C4 counterexample.  `numCreated_.fetch_add(1)` returns the
PRE-increment value of the zero-initialized counter, so in a fresh process
the first two unnamed threads are named `"Thread0"` and `"Thread1"` — not
`"Thread1"` and `"Thread2"` as the claim states. -/
theorem first_default_names_cex :
    (constructUnnamed 0 2).2 = ["Thread0", "Thread1"]
    ∧ (constructUnnamed 0 2).2 ≠ ["Thread1", "Thread2"] := by decide

/-- C4 (amended: in a fresh process the first unnamed thread is named
`"Thread0"` and the second `"Thread1"`; the counter is 32-bit, so the bound
`N < 2^31` keeps it strictly increasing).  Creating `N` unnamed
`Thread` instances yields the names `"Thread0"`, …, `"Thread<N-1>"` — `N`
pairwise distinct default names derived from the strictly increasing global
counter, which ends at `N`. -/
theorem default_names_counter_derived_distinct (N : Nat) (h : N < 2 ^ 31) :
    (constructUnnamed 0 N).2 =
      (List.range N).map (fun i => "Thread" ++ Nat.repr i)
    ∧ (constructUnnamed 0 N).2.Nodup
    ∧ (constructUnnamed 0 N).1 = (N : Int)
    ∧ (2 ≤ N → (constructUnnamed 0 N).2.take 2 = ["Thread0", "Thread1"]) := by
  have hs := constructUnnamed_spec N 0 (by omega)
  rw [show (((0 : Nat) : Int)) = (0 : Int) from rfl, Nat.zero_add] at hs
  refine ⟨by rw [hs, List.range_eq_range'], ?_, by rw [hs], ?_⟩
  · rw [hs]
    exact List.Nodup.map threadName_injective (List.nodup_range' 0 N)
  · intro h2
    obtain ⟨k, rfl⟩ : ∃ k, N = k + 2 := ⟨N - 2, by omega⟩
    rw [hs, List.range'_succ, List.range'_succ]
    simp only [List.map_cons, List.take_succ_cons, List.take_zero]
    decide

/-- C4 witness: three unnamed threads get the three distinct names
`"Thread0"`, `"Thread1"`, `"Thread2"`. -/
theorem default_names_counter_derived_distinct_witness :
    (constructUnnamed 0 3).2 =
      (List.range 3).map (fun i => "Thread" ++ Nat.repr i)
    ∧ (constructUnnamed 0 3).2.Nodup
    ∧ (constructUnnamed 0 3).1 = (3 : Int)
    ∧ (constructUnnamed 0 3).2.take 2 = ["Thread0", "Thread1"] :=
  ⟨(default_names_counter_derived_distinct 3 (by norm_num)).1,
   (default_names_counter_derived_distinct 3 (by norm_num)).2.1,
   (default_names_counter_derived_distinct 3 (by norm_num)).2.2.1,
   (default_names_counter_derived_distinct 3 (by norm_num)).2.2.2
     (by norm_num)⟩

/-- C10.  Every construction of a `Thread` advances the global counter by
exactly one `fetch_add` — also when a non-empty name is supplied, in which
case the counter's pre-increment value is unused and the supplied name kept;
only an empty name is replaced by `"Thread"` followed by the pre-increment
counter value.  The constructor also initializes `started_ = false`,
`joined_ = false` and the latch at count 1. -/
theorem constructor_always_increments_counter (c : Int) (name : String) :
    (Thread.construct c name).1 = wrap32 (c + 1)
    ∧ (name.isEmpty = false → (Thread.construct c name).2.name_ = name)
    ∧ (name.isEmpty = true →
        (Thread.construct c name).2.name_ = "Thread" ++ int32str c)
    ∧ (Thread.construct c name).2.started_ = false
    ∧ (Thread.construct c name).2.joined_ = false
    ∧ (Thread.construct c name).2.latchCount = 1 := by
  refine ⟨rfl, fun h => by simp [Thread.construct, setDefaultName, h],
    fun h => by simp [Thread.construct, setDefaultName, h], rfl, rfl, rfl⟩

/-- C10 witness: a named construction still advances the counter and keeps
its name. -/
theorem constructor_always_increments_counter_witness :
    (Thread.construct 5 "worker").1 = wrap32 (5 + 1)
    ∧ (Thread.construct 5 "worker").2.name_ = "worker" :=
  ⟨(constructor_always_increments_counter 5 "worker").1,
   (constructor_always_increments_counter 5 "worker").2.1 rfl⟩

end LuxBase
